import Mathlib

/-!
Verification development for the aiform agent/tool library.

Shallow embedding of:
- `src/error.rs`    : the `Error` enum and its `Display` rendering;
- `src/conversation.rs` : `Conversation` as an ordered message list with append operations;
- `src/lib.rs`      : `ToolSet` and the dispatcher produced by the `tools!` macro;
- `src/agent.rs`    : `Agent`, `AgentBuilder`, `execute_loop`, `run`, `call_as_tool`;
- `src/agent_tool.rs` : `AgentTool` and its `Tool` trait implementation;
- `src/aiform-macros/src/lib.rs` : the JSON-schema generator behind `derive(ToolArg)`.

JSON values are modelled by an inductive `Json`; objects are insertion-ordered
association lists (the spec fixes property ordering to declaration order).
The external chat client is a parameter `Nat → List Msg → Except String ChatResponse`
giving the response (or transport error) for each iteration; `serde_json::from_str`
on tool-call argument payloads is a parameter `String → Except String Json`.
Boxed dynamic errors (`Box<dyn Error + Send + Sync>`) are modelled by `DynError`.
-/

/-- A JSON value. Objects keep their fields in insertion order. -/
inductive Json where
  | str (s : String)
  | int (n : Int)
  | bool (b : Bool)
  | arr (elems : List Json)
  | obj (fields : List (String × Json))
  | null

/-- Look up a key in a JSON object, `none` on non-objects or missing keys. -/
def Json.getKey : Json → String → Option Json
  | .obj fs, k => (fs.find? (fun p => p.1 == k)).map (fun p => p.2)
  | _, _ => none

/-- Replace the first binding of `key`, or append a new binding at the end
(`serde_json` map insertion semantics on an existing/fresh key). -/
def setField (fields : List (String × Json)) (key : String) (v : Json) : List (String × Json) :=
  match fields with
  | [] => [(key, v)]
  | (k, old) :: rest => if k = key then (key, v) :: rest else (k, old) :: setField rest key v

/-- Model of `value[key] = v` on a JSON object (the only case the macro output
exercises: ToolArg schemas are always objects). -/
def Json.setKey : Json → String → Json → Json
  | .obj fs, k, v => .obj (setField fs k v)
  | j, _, _ => j

/-- A tool-call request from the model: `ChatCompletionMessageToolCall`
(id plus `function.name` / `function.arguments`). -/
structure ToolCall where
  id : String
  function_name : String
  function_arguments : String
deriving DecidableEq, Repr

/-- One conversation message (`ChatCompletionRequestMessage`):
system, user, assistant (optional content, optional tool calls), or tool result. -/
inductive Msg where
  | system (content : String)
  | user (content : String)
  | assistant (content : Option String) (tool_calls : Option (List ToolCall))
  | tool (tool_call_id : String) (content : String)
deriving DecidableEq, Repr

/-- The `Error` enum from `src/error.rs`. `OpenAI`, `Json` and `Other` carry
their payload's rendered message. -/
inductive Error where
  | OpenAI (msg : String)
  | Json (msg : String)
  | ToolNotFound (name : String)
  | AgentNotFound (name : String)
  | MaxIterationsExceeded (max : Nat)
  | ToolExecution (tool_name : String) (message : String)
  | InvalidConfiguration (msg : String)
  | Other (msg : String)
deriving DecidableEq, Repr

/-- The `Display` rendering of `Error` from `src/error.rs`. -/
def Error.toString : Error → String
  | .OpenAI e => "OpenAI API error: " ++ e
  | .Json e => "JSON error: " ++ e
  | .ToolNotFound name => "Tool not found: " ++ name
  | .AgentNotFound name => "Agent not found: " ++ name
  | .MaxIterationsExceeded max => "Agent exceeded maximum iterations: " ++ ToString.toString max
  | .ToolExecution tool_name message => "Tool '" ++ tool_name ++ "' failed: " ++ message
  | .InvalidConfiguration m => "Invalid configuration: " ++ m
  | .Other e => e

/-- Constructor discriminant of `Error`: two errors are distinguishable by a
`match` on the enum exactly when their tags differ. -/
def Error.tag : Error → Nat
  | .OpenAI _ => 0
  | .Json _ => 1
  | .ToolNotFound _ => 2
  | .AgentNotFound _ => 3
  | .MaxIterationsExceeded _ => 4
  | .ToolExecution _ _ => 5
  | .InvalidConfiguration _ => 6
  | .Other _ => 7

/-- A boxed dynamic error (`Box<dyn std::error::Error + Send + Sync>`):
either a boxed `Error` or a plain message (e.g. `"Unknown tool".into()`). -/
inductive DynError where
  | ofError (e : Error)
  | msg (s : String)
deriving DecidableEq, Repr

/-- `to_string()` on a boxed dynamic error. -/
def DynError.toString : DynError → String
  | .ofError e => e.toString
  | .msg s => s

/-- The function part of a `ChatCompletionTool` definition sent to the API:
name, description and parameter schema. -/
structure ToolDef where
  name : String
  description : String
  parameters : Json

/-- `ToolSet` from `src/lib.rs`: tool definitions plus a dispatcher routing
a name and argument value to a result. -/
structure ToolSet where
  tools : List ToolDef
  dispatcher : String → Json → Except DynError String

/-- `ToolSet::dispatch` (`src/lib.rs` line 128): apply the dispatcher. -/
def ToolSet.dispatch (ts : ToolSet) (name : String) (args : Json) : Except DynError String :=
  ts.dispatcher name args

/-- One tool as the `tools!` macro sees it: the `Tool` trait's associated
constants `NAME` and `DESCRIPTION`, its `parameters()` schema and its
`call` implementation. -/
structure ToolEntry where
  NAME : String
  DESCRIPTION : String
  parameters : Json
  call : Json → Except DynError String

/-- The `match name.as_str()` chain generated by the `tools!` macro
(`src/lib.rs` lines 166-177): first arm whose `NAME` matches wins; the
fall-through arm is `Err("Unknown tool".into())`. -/
def dispatchMatch : List (String × (Json → Except DynError String)) → String → Json →
    Except DynError String
  | [], _, _ => .error (.msg "Unknown tool")
  | (n, call) :: rest, name, args =>
    if name = n then call args else dispatchMatch rest name args

/-- The `tools!` macro (`src/lib.rs` lines 150-184): builds the definitions
vector from each tool's `NAME`/`DESCRIPTION`/`parameters()` and the
dispatcher matching on `NAME`. -/
def tools_build (entries : List ToolEntry) : ToolSet where
  tools := entries.map (fun t => ⟨t.NAME, t.DESCRIPTION, t.parameters⟩)
  dispatcher := dispatchMatch (entries.map (fun t => (t.NAME, t.call)))

/-- A `Conversation` (`src/conversation.rs`): an ordered list of messages. -/
abbrev Conversation := List Msg

/-- `Conversation::new`. -/
def Conversation.mkNew : Conversation := []

/-- `Conversation::add_system_message`: push a system message. -/
def Conversation.add_system_message (c : Conversation) (content : String) : Conversation :=
  c ++ [Msg.system content]

/-- `Conversation::with_system`: a new conversation seeded with one system message. -/
def Conversation.with_system (system_prompt : String) : Conversation :=
  Conversation.mkNew.add_system_message system_prompt

/-- `Conversation::add_user_message`: push a user message. -/
def Conversation.add_user_message (c : Conversation) (content : String) : Conversation :=
  c ++ [Msg.user content]

/-- `Conversation::add_assistant_message`: push an assistant message with
content and no tool calls. -/
def Conversation.add_assistant_message (c : Conversation) (content : String) : Conversation :=
  c ++ [Msg.assistant (some content) none]

/-- `Conversation::add_assistant_message_with_tools`: push an assistant
message carrying optional content and the tool-call requests. -/
def Conversation.add_assistant_message_with_tools (c : Conversation)
    (content : Option String) (tool_calls : List ToolCall) : Conversation :=
  c ++ [Msg.assistant content (some tool_calls)]

/-- `Conversation::add_tool_message`: push a tool-result message keyed by
the originating tool-call id. -/
def Conversation.add_tool_message (c : Conversation) (tool_call_id : String)
    (content : String) : Conversation :=
  c ++ [Msg.tool tool_call_id content]

/-- `Conversation::clear`: remove all messages. -/
def Conversation.clear (_c : Conversation) : Conversation := []

/-- `Conversation::len`. -/
def Conversation.len (c : Conversation) : Nat := c.length

/-- The assistant message inside the first choice of a chat completion
response: optional content and optional tool calls. -/
structure ChoiceMessage where
  content : Option String
  tool_calls : Option (List ToolCall)
deriving DecidableEq, Repr

/-- A chat completion response: a list of choices (only the first is read). -/
structure ChatResponse where
  choices : List ChoiceMessage
deriving DecidableEq, Repr

/-- The external chat client: for each iteration index and outbound message
list, either a response or a transport error (`OpenAIError`, rendered). -/
abbrev ChatClient := Nat → List Msg → Except String ChatResponse

/-- The external JSON text parser (`serde_json::from_str`) applied to a
tool call's raw `function.arguments` string. -/
abbrev ArgParse := String → Except String Json

/-- `DEFAULT_MAX_ITERATIONS` from `src/agent.rs` line 11. -/
def DEFAULT_MAX_ITERATIONS : Nat := 10

/-- The `Agent` struct (`src/agent.rs` lines 39-45), minus the wire client,
which is passed to the loop as an explicit function. -/
structure Agent where
  model : String
  system_prompt : Option String
  tools : Option ToolSet
  max_iterations : Nat

/-- The body of the tool-execution `for` loop in `Agent::execute_loop`
(`src/agent.rs` lines 145-159), for one tool call: parse the raw argument
payload (`?` wraps a parse failure as `Error::Json`), dispatch by name, and
wrap a dispatch failure as `Error::ToolExecution` with the rendered cause. -/
def tool_step (ts : ToolSet) (parse : ArgParse) (tc : ToolCall) : Except Error String :=
  match parse tc.function_arguments with
  | .error e => .error (.Json e)
  | .ok args =>
    match ts.dispatcher tc.function_name args with
    | .error e => .error (.ToolExecution tc.function_name e.toString)
    | .ok result => .ok result

/-- The tool-execution `for` loop of `Agent::execute_loop` (`src/agent.rs`
lines 145-159): process the batch in order, appending one tool-result
message per request; on the first failure stop, returning the conversation
as mutated so far together with the error. -/
def runToolCalls (ts : ToolSet) (parse : ArgParse) :
    List ToolCall → Conversation → Conversation × Option Error
  | [], conv => (conv, none)
  | tc :: rest, conv =>
    match parse tc.function_arguments with
    | .error e => (conv, some (.Json e))
    | .ok args =>
      match ts.dispatcher tc.function_name args with
      | .error e => (conv, some (.ToolExecution tc.function_name e.toString))
      | .ok result => runToolCalls ts parse rest (conv.add_tool_message tc.id result)

/-- The `for _iteration in 0..max_iterations` loop of `Agent::execute_loop`
(`src/agent.rs` lines 110-177), with `fuel` iterations remaining and `iter`
the current iteration index. Building the outbound request cannot fail here
(the only required field, the model, is always set), so the
`request.build()` error branch is not reachable and not modelled. Returns
the conversation as mutated so far together with the loop's result. -/
def execute_loop_go (ag : Agent) (client : ChatClient) (parse : ArgParse) :
    Nat → Nat → Conversation → Conversation × Except Error String
  | 0, _, conv => (conv, .error (.MaxIterationsExceeded ag.max_iterations))
  | fuel + 1, iter, conv =>
    match client iter conv with
    | .error e => (conv, .error (.OpenAI e))
    | .ok response =>
      match response.choices.head? with
      | none => (conv, .error (.Other "No response from API"))
      | some message =>
        match message.tool_calls with
        | some tool_calls =>
          let conv2 := conv.add_assistant_message_with_tools message.content tool_calls
          match ag.tools with
          | none =>
            (conv2, .error (.InvalidConfiguration
              "Agent received tool calls but has no tools configured"))
          | some toolset =>
            match runToolCalls toolset parse tool_calls conv2 with
            | (conv3, some e) => (conv3, .error e)
            | (conv3, none) => execute_loop_go ag client parse fuel (iter + 1) conv3
        | none =>
          match message.content with
          | some content => (conv, .ok content)
          | none => (conv, .error (.Other "Agent returned no content or tool calls"))

/-- `Agent::execute_loop` (`src/agent.rs` lines 109-178): run the iteration
loop starting from iteration 0 with `max_iterations` iterations available. -/
def Agent.execute_loop (ag : Agent) (client : ChatClient) (parse : ArgParse)
    (conversation : Conversation) : Conversation × Except Error String :=
  execute_loop_go ag client parse ag.max_iterations 0 conversation

/-- The fresh conversation built by both `Agent::run` (lines 63-69) and
`Agent::call_as_tool` (lines 98-104): the system prompt replicated when
configured, then the user message. -/
def privateConversation (system_prompt : Option String) (message : String) : Conversation :=
  (match system_prompt with
    | some p => Conversation.with_system p
    | none => Conversation.mkNew).add_user_message message

/-- `Agent::run` (`src/agent.rs` lines 62-71): build a fresh conversation
from the system prompt and the user message, run the loop, return its result. -/
def Agent.run (ag : Agent) (client : ChatClient) (parse : ArgParse)
    (message : String) : Except Error String :=
  (ag.execute_loop client parse (privateConversation ag.system_prompt message)).2

/-- `Agent::run_conversation` (`src/agent.rs` lines 82-84): run the loop on
an existing conversation. -/
def Agent.run_conversation (ag : Agent) (client : ChatClient) (parse : ArgParse)
    (conversation : Conversation) : Conversation × Except Error String :=
  ag.execute_loop client parse conversation

/-- `Agent::call_as_tool` (`src/agent.rs` lines 97-106): build a fresh
private conversation (system prompt replicated, then the user message), run
the loop on it, and return only the final text; the private conversation is
discarded. It takes no caller conversation at all. -/
def Agent.call_as_tool (ag : Agent) (client : ChatClient) (parse : ArgParse)
    (message : String) : Except Error String :=
  (ag.execute_loop client parse (privateConversation ag.system_prompt message)).2

/-- The `AgentBuilder` struct (`src/agent.rs` lines 198-204), minus the
wire client. -/
structure AgentBuilder where
  model : Option String
  system_prompt : Option String
  tools : Option ToolSet
  max_iterations : Option Nat

/-- `AgentBuilder::build` (`src/agent.rs` lines 257-271): fails with
`InvalidConfiguration` when no model is set, otherwise assembles the agent
with `max_iterations` defaulting to `DEFAULT_MAX_ITERATIONS`. -/
def AgentBuilder.build (b : AgentBuilder) : Except Error Agent :=
  match b.model with
  | none => .error (.InvalidConfiguration "Model must be specified")
  | some m =>
    .ok ⟨m, b.system_prompt, b.tools, b.max_iterations.getD DEFAULT_MAX_ITERATIONS⟩

/-- A Rust field type as classified by `schema_expr` in
`src/aiform-macros/src/lib.rs` (lines 266-327): the last path segment is
matched by name; `Vec`/`Option` may lack an angle-bracketed argument; any
other path type is assumed to implement `ToolArg` and contributes its own
`schema()` (carried here as the value that call returns); non-path types
fall through to the string schema. -/
inductive RustTy where
  | stringTy
  | intTy
  | floatTy
  | boolTy
  | vecOf (inner : RustTy)
  | vecNoArg
  | optionOf (inner : RustTy)
  | optionNoArg
  | other (schema : Json)
  | nonPath

/-- Attach a `description` key after the base fields when the description
is non-empty (the `desc_expr` splice in `schema_expr`). -/
def withDesc (base : List (String × Json)) (desc : String) : Json :=
  if desc = "" then .obj base else .obj (base ++ [("description", .str desc)])

/-- `schema_expr` (`src/aiform-macros/src/lib.rs` lines 266-327): the JSON
schema for one field type, with an optional description. `Option<T>`
contributes `T`'s schema with the same description; a named `ToolArg` type
contributes its own schema, with `description` set on it when non-empty. -/
def schema_expr : RustTy → String → Json
  | .stringTy, d => withDesc [("type", .str "string")] d
  | .intTy, d => withDesc [("type", .str "integer")] d
  | .floatTy, d => withDesc [("type", .str "number")] d
  | .boolTy, d => withDesc [("type", .str "boolean")] d
  | .vecOf t, d => withDesc [("type", .str "array"), ("items", schema_expr t "")] d
  | .vecNoArg, d => withDesc [("type", .str "array")] d
  | .optionOf t, d => schema_expr t d
  | .optionNoArg, d => withDesc [("type", .str "string")] d
  | .other s, d => if d = "" then s else s.setKey "description" (.str d)
  | .nonPath, d => withDesc [("type", .str "string")] d

/-- `is_option` (`src/aiform-macros/src/lib.rs` lines 330-340): is the last
path segment `Option`? -/
def is_option : RustTy → Bool
  | .optionOf _ => true
  | .optionNoArg => true
  | _ => false

/-- One declared struct field as the derive macro sees it: identifier,
type, and the `#[desc("...")]` string (empty when the attribute is absent). -/
structure StructField where
  name : String
  ty : RustTy
  desc : String

/-- The field loop of `impl_tool_arg_struct` (`src/aiform-macros/src/lib.rs`
lines 40-54): accumulate `(name, schema)` properties for every field in
declaration order, and the names of the non-`Option` fields as the
`required` list. -/
def struct_props_required : List StructField → List (String × Json) × List Json
  | [] => ([], [])
  | f :: rest =>
    let acc := struct_props_required rest
    ((f.name, schema_expr f.ty f.desc) :: acc.1,
     if is_option f.ty then acc.2 else .str f.name :: acc.2)

/-- `impl_tool_arg_struct` (`src/aiform-macros/src/lib.rs` lines 36-70):
the generated `schema()` for a record argument type. -/
def impl_tool_arg_struct (fields : List StructField) : Json :=
  .obj [("type", .str "object"),
        ("properties", .obj (struct_props_required fields).1),
        ("required", .arr (struct_props_required fields).2)]

/-- The payload of one enum variant: unit, tuple fields, or named fields. -/
inductive VariantFields where
  | unit
  | unnamed (tys : List RustTy)
  | named (fields : List (String × RustTy))

/-- One declared enum variant: identifier and payload. -/
structure EnumVariant where
  name : String
  fields : VariantFields

/-- One entry of the generated `oneOf` (`src/aiform-macros/src/lib.rs`
lines 80-127): an object requiring the discriminant property `type` with
`const` equal to the variant name, extended according to the payload:
nothing for a unit variant; a required `value` holding the payload schema
for a single tuple field; a required `value` of array type whose `items`
lists one schema per position for several tuple fields; each named field as
its own required property. -/
def variant_schema (v : EnumVariant) : Json :=
  let extra : List (String × Json) × List Json :=
    match v.fields with
    | .unit => ([], [])
    | .unnamed [t] => ([("value", schema_expr t "")], [.str "value"])
    | .unnamed ts =>
      ([("value", .obj [("type", .str "array"),
                        ("items", .arr (ts.map (fun t => schema_expr t "")))])],
       [.str "value"])
    | .named flds =>
      (flds.map (fun f => (f.1, schema_expr f.2 "")), flds.map (fun f => .str f.1))
  .obj [("type", .str "object"),
        ("properties", .obj (("type", Json.obj [("const", .str v.name)]) :: extra.1)),
        ("required", .arr (.str "type" :: extra.2))]

/-- `impl_tool_arg_enum` (`src/aiform-macros/src/lib.rs` lines 72-143): the
generated `schema()` for a tagged-union argument type, with the type-level
`#[desc]` merged in as a top-level `description` when non-empty. -/
def impl_tool_arg_enum (variants : List EnumVariant) (desc : String) : Json :=
  if desc = "" then .obj [("oneOf", .arr (variants.map variant_schema))]
  else .obj [("oneOf", .arr (variants.map variant_schema)), ("description", .str desc)]

/-- `AgentCallArgs` (`src/agent_tool.rs` lines 9-13): one required `String`
field `message` with no `#[desc]` attribute. Its derived `ToolArg` schema. -/
def AgentCallArgs_schema : Json :=
  impl_tool_arg_struct [⟨"message", .stringTy, ""⟩]

/-- The `AgentTool` struct (`src/agent_tool.rs` lines 49-53): per-instance
name and description fields plus the wrapped agent. -/
structure AgentTool where
  name : String
  description : String
  agent : Agent

/-- `AgentTool::new` (`src/agent_tool.rs` lines 63-74): store the given
name, description and agent. -/
def AgentTool.new (name description : String) (agent : Agent) : AgentTool :=
  ⟨name, description, agent⟩

/-- The associated constant `AgentTool::NAME` of the `Tool` implementation
(`src/agent_tool.rs` line 77). -/
def AgentTool.NAME : String := "agent_call"

/-- The associated constant `AgentTool::DESCRIPTION` (`src/agent_tool.rs`
line 78). -/
def AgentTool.DESCRIPTION : String := "Call another agent"

/-- The `Tool` trait method `name()` for `AgentTool` (`src/agent_tool.rs`
lines 80-82): returns `Self::NAME`, ignoring the instance. -/
def AgentTool.tool_name (_t : AgentTool) : String := AgentTool.NAME

/-- The `Tool` trait method `description()` for `AgentTool`
(`src/agent_tool.rs` lines 84-86): returns `Self::DESCRIPTION`. -/
def AgentTool.tool_description (_t : AgentTool) : String := AgentTool.DESCRIPTION

/-- The `ChatCompletionTool` definition the `tools!` macro builds for a
registered tool type (`src/lib.rs` lines 153-164), instantiated for
`AgentTool`: name and description come from the associated constants,
parameters from `AgentCallArgs::schema()`. -/
def AgentTool.exposed_definition (_t : AgentTool) : ToolDef :=
  ⟨AgentTool.NAME, AgentTool.DESCRIPTION, AgentCallArgs_schema⟩

/-- The tool-result messages a fully successful batch appends: one message
per request, in order, keyed by the request id (meaningful when every
`tool_step` succeeds). -/
def tool_results (ts : ToolSet) (parse : ArgParse) (tcs : List ToolCall) : List Msg :=
  tcs.map (fun tc => Msg.tool tc.id ((tool_step ts parse tc).toOption.getD ""))

/-- Unfold one step of the tool-execution loop through `tool_step`. -/
theorem runToolCalls_step (ts : ToolSet) (parse : ArgParse) (tc : ToolCall)
    (rest : List ToolCall) (conv : Conversation) :
    runToolCalls ts parse (tc :: rest) conv =
      match tool_step ts parse tc with
      | .error e => (conv, some e)
      | .ok result => runToolCalls ts parse rest (conv.add_tool_message tc.id result) := by
  cases hp : parse tc.function_arguments with
  | error e => simp [runToolCalls, tool_step, hp]
  | ok args =>
    cases hd : ts.dispatcher tc.function_name args with
    | error e => simp [runToolCalls, tool_step, hp, hd]
    | ok r => simp [runToolCalls, tool_step, hp, hd]

/-- The tool-execution loop only appends to the conversation. -/
theorem runToolCalls_conv_append (ts : ToolSet) (parse : ArgParse) :
    ∀ (tcs : List ToolCall) (conv : Conversation),
    ∃ s, (runToolCalls ts parse tcs conv).1 = conv ++ s := by
  intro tcs
  induction tcs with
  | nil => exact fun conv => ⟨[], by simp [runToolCalls]⟩
  | cons tc rest ih =>
    intro conv
    rw [runToolCalls_step]
    cases hstep : tool_step ts parse tc with
    | error e => exact ⟨[], by simp⟩
    | ok r =>
      obtain ⟨s, hs⟩ := ih (conv.add_tool_message tc.id r)
      refine ⟨Msg.tool tc.id r :: s, ?_⟩
      simpa [Conversation.add_tool_message] using hs

/-- A failing tool batch reports a JSON-parse or tool-execution error,
never any other `Error` constructor. -/
theorem runToolCalls_err_shape (ts : ToolSet) (parse : ArgParse) :
    ∀ (tcs : List ToolCall) (conv conv' : Conversation) (e : Error),
    runToolCalls ts parse tcs conv = (conv', some e) →
    e.tag = 1 ∨ e.tag = 5 := by
  intro tcs
  induction tcs with
  | nil => intro conv conv' e h; simp [runToolCalls] at h
  | cons tc rest ih =>
    intro conv conv' e h
    rw [runToolCalls_step] at h
    cases hstep : tool_step ts parse tc with
    | error e' =>
      rw [hstep] at h
      simp only at h
      obtain ⟨-, he⟩ := Prod.mk.injEq .. ▸ h
      cases he
      cases hp : parse tc.function_arguments with
      | error e2 => simp only [tool_step, hp] at hstep; cases hstep; simp [Error.tag]
      | ok args =>
        cases hd : ts.dispatcher tc.function_name args with
        | error e2 => simp only [tool_step, hp, hd] at hstep; cases hstep; simp [Error.tag]
        | ok r => simp only [tool_step, hp, hd] at hstep; cases hstep
    | ok r =>
      rw [hstep] at h
      exact ih _ conv' e h

/-- The agent loop only appends to the conversation. -/
theorem execute_loop_go_conv_append (ag : Agent) (client : ChatClient) (parse : ArgParse) :
    ∀ (fuel iter : Nat) (conv : Conversation),
    ∃ s, (execute_loop_go ag client parse fuel iter conv).1 = conv ++ s := by
  intro fuel
  induction fuel with
  | zero => exact fun iter conv => ⟨[], by simp [execute_loop_go]⟩
  | succ n ih =>
    intro iter conv
    cases hresp : client iter conv with
    | error e => exact ⟨[], by simp [execute_loop_go, hresp]⟩
    | ok response =>
      cases hhead : response.choices.head? with
      | none => exact ⟨[], by simp [execute_loop_go, hresp, hhead]⟩
      | some message =>
        cases htc : message.tool_calls with
        | none =>
          cases hcont : message.content with
          | some c => exact ⟨[], by simp [execute_loop_go, hresp, hhead, htc, hcont]⟩
          | none => exact ⟨[], by simp [execute_loop_go, hresp, hhead, htc, hcont]⟩
        | some tool_calls =>
          cases htools : ag.tools with
          | none =>
            exact ⟨[Msg.assistant message.content (some tool_calls)], by
              simp [execute_loop_go, hresp, hhead, htc, htools,
                Conversation.add_assistant_message_with_tools]⟩
          | some toolset =>
            obtain ⟨s₁, hs₁⟩ := runToolCalls_conv_append toolset parse tool_calls
              (conv.add_assistant_message_with_tools message.content tool_calls)
            cases hrun : runToolCalls toolset parse tool_calls
                (conv.add_assistant_message_with_tools message.content tool_calls) with
            | mk conv3 oe =>
              rw [hrun] at hs₁
              simp only at hs₁
              cases oe with
              | none =>
                obtain ⟨s₂, hs₂⟩ := ih (iter + 1) conv3
                refine ⟨Msg.assistant message.content (some tool_calls) :: (s₁ ++ s₂), ?_⟩
                simp only [execute_loop_go, hresp, hhead, htc, htools, hrun]
                rw [hs₂, hs₁]
                simp [Conversation.add_assistant_message_with_tools]
              | some e =>
                refine ⟨Msg.assistant message.content (some tool_calls) :: s₁, ?_⟩
                simp only [execute_loop_go, hresp, hhead, htc, htools, hrun]
                rw [hs₁]
                simp [Conversation.add_assistant_message_with_tools]

/-- The loop's result depends on the client only at the iterations it can
actually reach: iterations `iter` through `iter + fuel - 1`. -/
theorem execute_loop_go_client_agree (ag : Agent) (c c' : ChatClient) (parse : ArgParse) :
    ∀ (fuel iter : Nat) (conv : Conversation),
    (∀ k messages, iter ≤ k → k < iter + fuel → c k messages = c' k messages) →
    execute_loop_go ag c parse fuel iter conv = execute_loop_go ag c' parse fuel iter conv := by
  intro fuel
  induction fuel with
  | zero => intro iter conv _; rfl
  | succ n ih =>
    intro iter conv h
    have hc : c iter conv = c' iter conv := h iter conv le_rfl (by omega)
    cases hresp : c' iter conv with
    | error e => simp [execute_loop_go, hc, hresp]
    | ok response =>
      cases hhead : response.choices.head? with
      | none => simp [execute_loop_go, hc, hresp, hhead]
      | some message =>
        cases htc : message.tool_calls with
        | none => simp [execute_loop_go, hc, hresp, hhead, htc]
        | some tool_calls =>
          cases htools : ag.tools with
          | none => simp [execute_loop_go, hc, hresp, hhead, htc, htools]
          | some toolset =>
            cases hrun : runToolCalls toolset parse tool_calls
                (conv.add_assistant_message_with_tools message.content tool_calls) with
            | mk conv3 oe =>
              cases oe with
              | some e => simp [execute_loop_go, hc, hresp, hhead, htc, htools, hrun]
              | none =>
                simp only [execute_loop_go, hc, hresp, hhead, htc, htools, hrun]
                exact ih (iter + 1) conv3 (fun k m hk hk' => h k m (by omega) (by omega))

/-- A `MaxIterationsExceeded` failure always carries the configured cap:
the loop constructs it only when the fuel runs out. -/
theorem execute_loop_go_max_iter (ag : Agent) (client : ChatClient) (parse : ArgParse) :
    ∀ (fuel iter : Nat) (conv : Conversation) (m : Nat),
    (execute_loop_go ag client parse fuel iter conv).2 = .error (.MaxIterationsExceeded m) →
    m = ag.max_iterations := by
  intro fuel
  induction fuel with
  | zero =>
    intro iter conv m h
    simp only [execute_loop_go] at h
    cases h
    rfl
  | succ n ih =>
    intro iter conv m h
    cases hresp : client iter conv with
    | error e => simp [execute_loop_go, hresp] at h
    | ok response =>
      cases hhead : response.choices.head? with
      | none => simp [execute_loop_go, hresp, hhead] at h
      | some message =>
        cases htc : message.tool_calls with
        | none =>
          cases hcont : message.content with
          | some content => simp [execute_loop_go, hresp, hhead, htc, hcont] at h
          | none => simp [execute_loop_go, hresp, hhead, htc, hcont] at h
        | some tool_calls =>
          cases htools : ag.tools with
          | none => simp [execute_loop_go, hresp, hhead, htc, htools] at h
          | some toolset =>
            cases hrun : runToolCalls toolset parse tool_calls
                (conv.add_assistant_message_with_tools message.content tool_calls) with
            | mk conv3 oe =>
              cases oe with
              | some e =>
                simp only [execute_loop_go, hresp, hhead, htc, htools, hrun] at h
                cases h
                have := runToolCalls_err_shape toolset parse tool_calls _ conv3 _ hrun
                simp [Error.tag] at this
              | none =>
                simp only [execute_loop_go, hresp, hhead, htc, htools, hrun] at h
                exact ih (iter + 1) conv3 m h

/-- A prefix of all-successful tool calls is processed in order, appending
its results, before the rest of the batch is considered. -/
theorem runToolCalls_prefix_ok (ts : ToolSet) (parse : ArgParse) :
    ∀ (pre rest : List ToolCall) (conv : Conversation),
    (∀ t ∈ pre, (tool_step ts parse t).isOk = true) →
    runToolCalls ts parse (pre ++ rest) conv
      = runToolCalls ts parse rest (conv ++ tool_results ts parse pre) := by
  intro pre
  induction pre with
  | nil => intro rest conv _; simp [tool_results]
  | cons tc pre' ih =>
    intro rest conv h
    have htc : (tool_step ts parse tc).isOk = true := h tc (by simp)
    cases hstep : tool_step ts parse tc with
    | error e => rw [hstep] at htc; simp [Except.isOk, Except.toBool] at htc
    | ok r =>
      rw [List.cons_append, runToolCalls_step, hstep]
      show runToolCalls ts parse (pre' ++ rest) (conv.add_tool_message tc.id r)
        = runToolCalls ts parse rest (conv ++ tool_results ts parse (tc :: pre'))
      rw [ih rest (conv.add_tool_message tc.id r) (fun t ht => h t (by simp [ht]))]
      simp [tool_results, Conversation.add_tool_message, hstep, Except.toOption]

/-- Claim C1: the agent loop executes at most `max_iterations`
model-call/tool-dispatch cycles and never diverges. The loop (a total
function here) cannot observe the client beyond iterations
`0..max_iterations - 1`, and any `MaxIterationsExceeded` failure it
returns carries exactly the configured `max_iterations`. -/
theorem agent_loop_iteration_cap (ag : Agent) (client client' : ChatClient)
    (parse : ArgParse) (conv : Conversation)
    (hagree : ∀ k messages, k < ag.max_iterations → client k messages = client' k messages) :
    ag.execute_loop client parse conv = ag.execute_loop client' parse conv ∧
    ∀ m : Nat, (ag.execute_loop client parse conv).2 = .error (.MaxIterationsExceeded m) →
      m = ag.max_iterations := by
  constructor
  · exact execute_loop_go_client_agree ag client client' parse ag.max_iterations 0 conv
      (fun k m _ hk' => hagree k m (by omega))
  · exact fun m h => execute_loop_go_max_iter ag client parse ag.max_iterations 0 conv m h

/-- Evaluate `agent_loop_iteration_cap` at a concrete one-iteration agent
and client, discharging its hypothesis. -/
theorem agent_loop_iteration_cap_witness :
    (∀ k (messages : List Msg), k < (⟨"gpt-4", none, none, 1⟩ : Agent).max_iterations →
      (fun (_ : Nat) (_ : List Msg) => (.error "boom" : Except String ChatResponse)) k messages
        = (fun (_ : Nat) (_ : List Msg) => (.error "boom" : Except String ChatResponse)) k
            messages) ∧
    ((⟨"gpt-4", none, none, 1⟩ : Agent).execute_loop (fun _ _ => .error "boom")
        (fun _ => .ok .null) []
      = (⟨"gpt-4", none, none, 1⟩ : Agent).execute_loop (fun _ _ => .error "boom")
          (fun _ => .ok .null) [] ∧
     ∀ m : Nat, ((⟨"gpt-4", none, none, 1⟩ : Agent).execute_loop (fun _ _ => .error "boom")
        (fun _ => .ok .null) []).2 = .error (.MaxIterationsExceeded m) → m = 1) :=
  ⟨fun _ _ _ => rfl,
   agent_loop_iteration_cap ⟨"gpt-4", none, none, 1⟩ _ _ (fun _ => .ok .null) []
     (fun _ _ _ => rfl)⟩

/-- Claim C2: a batch of tool-call requests is processed strictly in the
order received, appending one tool-result message keyed by each request's
id; when the dispatch of one request fails, the loop stops with
`ToolExecution` (the spec's `ToolExecutionFailed{name, cause}`) for that
tool, and no later request in the batch is dispatched or appended. -/
theorem tool_batch_order_and_abort (ts : ToolSet) (parse : ArgParse)
    (pre post : List ToolCall) (tc : ToolCall) (conv : Conversation)
    (hpre : ∀ t ∈ pre, (tool_step ts parse t).isOk = true) :
    runToolCalls ts parse pre conv = (conv ++ tool_results ts parse pre, none) ∧
    ∀ args e, parse tc.function_arguments = .ok args →
      ts.dispatcher tc.function_name args = .error e →
      runToolCalls ts parse (pre ++ tc :: post) conv =
        (conv ++ tool_results ts parse pre,
         some (.ToolExecution tc.function_name e.toString)) := by
  constructor
  · have h := runToolCalls_prefix_ok ts parse pre [] conv hpre
    rw [List.append_nil] at h
    rw [h]
    rfl
  · intro args e hparse hdisp
    rw [runToolCalls_prefix_ok ts parse pre (tc :: post) conv hpre, runToolCalls_step]
    have hstep : tool_step ts parse tc
        = .error (.ToolExecution tc.function_name e.toString) := by
      simp [tool_step, hparse, hdisp]
    rw [hstep]

/-- Evaluate `tool_batch_order_and_abort` on a concrete two-request batch:
the first request dispatches to a registered tool, the second names a tool
whose dispatch fails. -/
theorem tool_batch_order_and_abort_witness :
    (∀ t ∈ [(⟨"1", "add", "null"⟩ : ToolCall)],
      (tool_step (tools_build [⟨"add", "Adds numbers", Json.null, fun _ => .ok "4"⟩])
        (fun _ => .ok .null) t).isOk = true) ∧
    runToolCalls (tools_build [⟨"add", "Adds numbers", Json.null, fun _ => .ok "4"⟩])
        (fun _ => .ok .null) [⟨"1", "add", "null"⟩] []
      = ([Msg.tool "1" "4"], none) ∧
    runToolCalls (tools_build [⟨"add", "Adds numbers", Json.null, fun _ => .ok "4"⟩])
        (fun _ => .ok .null)
        ([⟨"1", "add", "null"⟩] ++ (⟨"2", "missing", "null"⟩ : ToolCall) :: [⟨"3", "add", "null"⟩])
        []
      = ([Msg.tool "1" "4"], some (.ToolExecution "missing" "Unknown tool")) := by
  have h := tool_batch_order_and_abort
    (tools_build [⟨"add", "Adds numbers", Json.null, fun _ => .ok "4"⟩])
    (fun _ => .ok .null) [⟨"1", "add", "null"⟩] [⟨"3", "add", "null"⟩]
    ⟨"2", "missing", "null"⟩ []
    (by intro t ht; rw [List.mem_singleton] at ht; subst ht; rfl)
  refine ⟨by intro t ht; rw [List.mem_singleton] at ht; subst ht; rfl, ?_, ?_⟩
  · rw [h.1]; rfl
  · rw [h.2 Json.null (.msg "Unknown tool") rfl rfl]; rfl

/-- Claim C3 counterexample: dispatching the name `"missing"` against a
registry that does not contain it yields the untyped boxed error
`"Unknown tool"`, not the typed `Error::ToolNotFound("missing")` the claim
requires (that variant of `Error` is never constructed by the dispatcher). -/
theorem dispatch_missing_unknown_tool_cex :
    (tools_build [⟨"add", "Adds numbers", Json.null, fun _ => .ok "4"⟩]).dispatch
        "missing" Json.null
      = .error (.msg "Unknown tool") ∧
    (tools_build [⟨"add", "Adds numbers", Json.null, fun _ => .ok "4"⟩]).dispatch
        "missing" Json.null
      ≠ .error (.ofError (.ToolNotFound "missing")) := by
  constructor
  · rfl
  · intro h
    rw [show (tools_build [⟨"add", "Adds numbers", Json.null, fun _ => .ok "4"⟩]).dispatch
          "missing" Json.null = .error (.msg "Unknown tool") from rfl] at h
    simp at h

/-- Claim C3 amended: dispatching any name absent from the registry fails
(it does not panic: the dispatcher is a total function) with the generic
boxed error message `"Unknown tool"`, which does not carry the requested
name and is not the typed `Error::ToolNotFound`. -/
theorem dispatch_unknown_tool (entries : List ToolEntry) (name : String) (args : Json)
    (habsent : ∀ t ∈ entries, t.NAME ≠ name) :
    (tools_build entries).dispatch name args = .error (.msg "Unknown tool") := by
  show dispatchMatch (entries.map (fun t => (t.NAME, t.call))) name args
    = .error (.msg "Unknown tool")
  induction entries with
  | nil => rfl
  | cons t rest ih =>
    show (if name = t.NAME then t.call args
      else dispatchMatch (rest.map (fun t => (t.NAME, t.call))) name args)
      = .error (.msg "Unknown tool")
    rw [if_neg (fun hn => habsent t (by simp) hn.symm)]
    exact ih (fun t ht => habsent t (by simp [ht]))

/-- Evaluate `dispatch_unknown_tool` on a concrete registry and a name it
does not contain. -/
theorem dispatch_unknown_tool_witness :
    (∀ t ∈ [(⟨"add", "Adds numbers", Json.null, fun _ => .ok "4"⟩ : ToolEntry)],
      t.NAME ≠ "missing") ∧
    (tools_build [⟨"add", "Adds numbers", Json.null, fun _ => .ok "4"⟩]).dispatch
        "missing" Json.null
      = .error (.msg "Unknown tool") :=
  ⟨by intro t ht; rw [List.mem_singleton] at ht; subst ht; decide,
   dispatch_unknown_tool [⟨"add", "Adds numbers", Json.null, fun _ => .ok "4"⟩]
     "missing" Json.null
     (by intro t ht; rw [List.mem_singleton] at ht; subst ht; decide)⟩

/-- Claim C4 counterexample: on a model response with neither content nor
tool calls the loop fails, but with the generic `Error::Other` variant
(message `"Agent returned no content or tool calls"`), not a distinguished
`EmptyResponse` error — no such variant exists, and the very same `Other`
constructor also carries the unrelated missing-choices failure, so matching
on the error cannot single out the empty-response condition. -/
theorem empty_response_other_cex :
    ((⟨"gpt-4", none, none, 10⟩ : Agent).execute_loop
        (fun _ _ => .ok ⟨[⟨none, none⟩]⟩) (fun _ => .ok .null) []).2
      = .error (.Other "Agent returned no content or tool calls") ∧
    ((⟨"gpt-4", none, none, 10⟩ : Agent).execute_loop
        (fun _ _ => .ok ⟨[]⟩) (fun _ => .ok .null) []).2
      = .error (.Other "No response from API") ∧
    Error.tag (.Other "Agent returned no content or tool calls")
      = Error.tag (.Other "No response from API") :=
  ⟨rfl, rfl, rfl⟩

/-- Claim C4 amended: if the model responds successfully but the first
choice's message has neither content nor tool calls, the loop fails
immediately with `Error::Other "Agent returned no content or tool calls"`
(a generic error, there being no dedicated `EmptyResponse` variant),
leaving the conversation as it was. -/
theorem empty_response_generic_other (ag : Agent) (client : ChatClient) (parse : ArgParse)
    (conv : Conversation) (response : ChatResponse) (message : ChoiceMessage)
    (hmax : 0 < ag.max_iterations)
    (hresp : client 0 conv = .ok response)
    (hhead : response.choices.head? = some message)
    (htc : message.tool_calls = none)
    (hcont : message.content = none) :
    ag.execute_loop client parse conv
      = (conv, .error (.Other "Agent returned no content or tool calls")) := by
  show execute_loop_go ag client parse ag.max_iterations 0 conv = _
  obtain ⟨n, hn⟩ : ∃ n, ag.max_iterations = n + 1 := ⟨ag.max_iterations - 1, by omega⟩
  rw [hn]
  simp [execute_loop_go, hresp, hhead, htc, hcont]

/-- Evaluate `empty_response_generic_other` at a concrete agent and a
client answering with an empty assistant message. -/
theorem empty_response_generic_other_witness :
    (0 < (⟨"gpt-4", none, none, 10⟩ : Agent).max_iterations ∧
      (fun (_ : Nat) (_ : List Msg) =>
        (.ok ⟨[⟨none, none⟩]⟩ : Except String ChatResponse)) 0 []
        = .ok ⟨[⟨none, none⟩]⟩ ∧
      (⟨[⟨none, none⟩]⟩ : ChatResponse).choices.head? = some ⟨none, none⟩ ∧
      (⟨none, none⟩ : ChoiceMessage).tool_calls = none ∧
      (⟨none, none⟩ : ChoiceMessage).content = none) ∧
    (⟨"gpt-4", none, none, 10⟩ : Agent).execute_loop
        (fun _ _ => .ok ⟨[⟨none, none⟩]⟩) (fun _ => .ok .null) []
      = ([], .error (.Other "Agent returned no content or tool calls")) :=
  ⟨⟨by decide, rfl, rfl, rfl, rfl⟩,
   empty_response_generic_other ⟨"gpt-4", none, none, 10⟩ _ (fun _ => .ok .null) []
     ⟨[⟨none, none⟩]⟩ ⟨none, none⟩ (by decide) rfl rfl rfl rfl⟩

/-- Claim C5 counterexample: when tool calls arrive and no registry is
configured the loop fails, but with the generic
`Error::InvalidConfiguration` variant, not a distinguished
`NoToolsConfigured` error — no such variant exists, and the very same
`InvalidConfiguration` constructor also carries the unrelated
missing-model builder failure, so matching on the error cannot single out
the no-tools condition. -/
theorem no_tools_invalid_configuration_cex :
    ((⟨"gpt-4", none, none, 10⟩ : Agent).execute_loop
        (fun _ _ => .ok ⟨[⟨none, some [⟨"1", "add", "null"⟩]⟩]⟩) (fun _ => .ok .null) []).2
      = .error (.InvalidConfiguration "Agent received tool calls but has no tools configured") ∧
    AgentBuilder.build ⟨none, none, none, none⟩
      = .error (.InvalidConfiguration "Model must be specified") ∧
    Error.tag (.InvalidConfiguration "Agent received tool calls but has no tools configured")
      = Error.tag (.InvalidConfiguration "Model must be specified") :=
  ⟨rfl, rfl, rfl⟩

/-- Claim C5 amended: if a model response carries tool-call requests while
the agent has no tool registry, the loop fails with
`Error::InvalidConfiguration "Agent received tool calls but has no tools
configured"` (a generic configuration error, there being no dedicated
`NoToolsConfigured` variant), after having appended the assistant message
recording the requests. -/
theorem no_tools_invalid_configuration (ag : Agent) (client : ChatClient) (parse : ArgParse)
    (conv : Conversation) (response : ChatResponse) (message : ChoiceMessage)
    (tool_calls : List ToolCall)
    (hmax : 0 < ag.max_iterations)
    (hresp : client 0 conv = .ok response)
    (hhead : response.choices.head? = some message)
    (htc : message.tool_calls = some tool_calls)
    (htools : ag.tools = none) :
    ag.execute_loop client parse conv
      = (conv.add_assistant_message_with_tools message.content tool_calls,
         .error (.InvalidConfiguration
           "Agent received tool calls but has no tools configured")) := by
  show execute_loop_go ag client parse ag.max_iterations 0 conv = _
  obtain ⟨n, hn⟩ : ∃ n, ag.max_iterations = n + 1 := ⟨ag.max_iterations - 1, by omega⟩
  rw [hn]
  simp [execute_loop_go, hresp, hhead, htc, htools]

/-- Evaluate `no_tools_invalid_configuration` at a concrete agent without
tools and a client requesting a tool call. -/
theorem no_tools_invalid_configuration_witness :
    (0 < (⟨"gpt-4", none, none, 10⟩ : Agent).max_iterations ∧
      (⟨none, some [⟨"1", "add", "null"⟩]⟩ : ChoiceMessage).tool_calls
        = some [⟨"1", "add", "null"⟩] ∧
      (⟨"gpt-4", none, none, 10⟩ : Agent).tools = none) ∧
    (⟨"gpt-4", none, none, 10⟩ : Agent).execute_loop
        (fun _ _ => .ok ⟨[⟨none, some [⟨"1", "add", "null"⟩]⟩]⟩) (fun _ => .ok .null) []
      = ([Msg.assistant none (some [⟨"1", "add", "null"⟩])],
         .error (.InvalidConfiguration
           "Agent received tool calls but has no tools configured")) :=
  ⟨⟨by decide, rfl, rfl⟩,
   no_tools_invalid_configuration ⟨"gpt-4", none, none, 10⟩ _ (fun _ => .ok .null) []
     ⟨[⟨none, some [⟨"1", "add", "null"⟩]⟩]⟩ ⟨none, some [⟨"1", "add", "null"⟩]⟩
     [⟨"1", "add", "null"⟩] (by decide) rfl rfl rfl rfl⟩

/-- The accumulating field loop of `impl_tool_arg_struct` produces the
per-field property list in declaration order and the filtered name list of
non-optional fields. -/
theorem struct_props_required_eq (fields : List StructField) :
    struct_props_required fields
      = (fields.map (fun f => (f.name, schema_expr f.ty f.desc)),
         (fields.filter (fun f => ! is_option f.ty)).map (fun f => Json.str f.name)) := by
  induction fields with
  | nil => rfl
  | cons f rest ih =>
    cases hopt : is_option f.ty <;>
      simp [struct_props_required, ih, List.filter_cons, hopt]

/-- Claim C6: for every record argument type, the generated schema is an
object with `type` `"object"`, one property per declared field in
declaration order, and a `required` list holding exactly the names of the
non-optional fields; an `Option` field contributes its inner type's schema
(same description) and is excluded from `required`. -/
theorem record_schema_shape (fields : List StructField) :
    (impl_tool_arg_struct fields).getKey "type" = some (.str "object") ∧
    (impl_tool_arg_struct fields).getKey "properties"
      = some (.obj (fields.map (fun f => (f.name, schema_expr f.ty f.desc)))) ∧
    (impl_tool_arg_struct fields).getKey "required"
      = some (.arr ((fields.filter (fun f => ! is_option f.ty)).map
          (fun f => Json.str f.name))) ∧
    ∀ t d, is_option (.optionOf t) = true ∧ schema_expr (.optionOf t) d = schema_expr t d := by
  rw [impl_tool_arg_struct, struct_props_required_eq]
  exact ⟨rfl, rfl, rfl, fun t d => ⟨rfl, rfl⟩⟩

/-- Claim C7: for every tagged-union argument type, the generated schema's
`oneOf` lists exactly one entry per variant, in declaration order; every
entry requires the discriminant `type` with `const` equal to the variant's
name; a zero-payload variant requires only `type`; a single-payload
variant adds a required `value` typed from the payload; a multi-payload
variant adds a required `value` of array type whose `items` list has
exactly one schema per payload position; a named-fields variant adds each
field as its own required property. -/
theorem enum_schema_shape (variants : List EnumVariant) (desc : String) :
    ((impl_tool_arg_enum variants desc).getKey "oneOf"
        = some (.arr (variants.map variant_schema))) ∧
    (variants.map variant_schema).length = variants.length ∧
    (∀ i : Nat, (variants.map variant_schema)[i]?
        = (variants[i]?).map variant_schema) ∧
    (∀ name, variant_schema ⟨name, .unit⟩
        = .obj [("type", .str "object"),
                ("properties", .obj [("type", .obj [("const", .str name)])]),
                ("required", .arr [.str "type"])]) ∧
    (∀ name t, variant_schema ⟨name, .unnamed [t]⟩
        = .obj [("type", .str "object"),
                ("properties", .obj [("type", .obj [("const", .str name)]),
                                     ("value", schema_expr t "")]),
                ("required", .arr [.str "type", .str "value"])]) ∧
    (∀ name t₁ t₂ ts, variant_schema ⟨name, .unnamed (t₁ :: t₂ :: ts)⟩
        = .obj [("type", .str "object"),
                ("properties", .obj [("type", .obj [("const", .str name)]),
                  ("value", .obj [("type", .str "array"),
                    ("items", .arr ((t₁ :: t₂ :: ts).map (fun t => schema_expr t "")))])]),
                ("required", .arr [.str "type", .str "value"])] ∧
        ((t₁ :: t₂ :: ts).map (fun t => schema_expr t "")).length = ts.length + 2) ∧
    (∀ name flds, variant_schema ⟨name, .named flds⟩
        = .obj [("type", .str "object"),
                ("properties", .obj (("type", Json.obj [("const", .str name)])
                  :: flds.map (fun f => (f.1, schema_expr f.2 "")))),
                ("required", .arr (.str "type" :: flds.map (fun f => Json.str f.1)))]) := by
  refine ⟨?_, by simp, fun i => by simp, fun name => rfl, fun name t => rfl,
    fun name t₁ t₂ ts => ⟨rfl, by simp⟩, fun name flds => rfl⟩
  by_cases h : desc = ""
  · rw [impl_tool_arg_enum, if_pos h]; rfl
  · rw [impl_tool_arg_enum, if_neg h]; rfl

/-- Claim C8: `call_as_tool` runs the very loop used everywhere else, but
on a brand-new conversation holding only the replicated system prompt
(when configured) followed by the given user message, and returns only the
loop's final text. It receives no caller-owned conversation at all (its
only inputs are the agent, the external collaborators and the message), and
every message the private run ever holds extends that fresh conversation,
so the messages of the private run and of any caller conversation are
disjoint. -/
theorem call_as_tool_isolated (ag : Agent) (client : ChatClient) (parse : ArgParse)
    (message : String) :
    ag.call_as_tool client parse message
      = (ag.execute_loop client parse (privateConversation ag.system_prompt message)).2 ∧
    privateConversation ag.system_prompt message
      = (ag.system_prompt.elim [] (fun p => [Msg.system p])) ++ [Msg.user message] ∧
    ∃ s, (ag.execute_loop client parse (privateConversation ag.system_prompt message)).1
      = privateConversation ag.system_prompt message ++ s := by
  refine ⟨rfl, ?_, execute_loop_go_conv_append ag client parse ag.max_iterations 0 _⟩
  cases ag.system_prompt <;>
    simp [privateConversation, Conversation.with_system, Conversation.mkNew,
      Conversation.add_system_message, Conversation.add_user_message]

/-- Claim C9: every add operation on a conversation appends exactly one
message at the end, leaving all previously present messages unchanged in
content and order; `clear` is the only truncation, leaving the list empty. -/
theorem conversation_append_only (cv : Conversation) (s : String) (content : Option String)
    (tcs : List ToolCall) (tool_call_id result : String) :
    cv.add_user_message s = cv ++ [Msg.user s] ∧
    cv.add_assistant_message s = cv ++ [Msg.assistant (some s) none] ∧
    cv.add_assistant_message_with_tools content tcs = cv ++ [Msg.assistant content (some tcs)] ∧
    cv.add_tool_message tool_call_id result = cv ++ [Msg.tool tool_call_id result] ∧
    cv.add_system_message s = cv ++ [Msg.system s] ∧
    (∀ (m : Msg) (i : Nat), i < cv.length → (cv ++ [m])[i]? = cv[i]?) ∧
    (∀ m : Msg, (cv ++ [m]).length = cv.length + 1) ∧
    cv.clear = ([] : Conversation) := by
  refine ⟨rfl, rfl, rfl, rfl, rfl, ?_, by simp, rfl⟩
  intro m i hi
  rw [List.getElem?_append, if_pos hi]

/-- Claim C10: whatever name and description are passed to
`AgentTool::new`, the name and description exposed through the `Tool`
interface — and hence used by the `tools!` macro for the wire definition
and for dispatch — are the constants `"agent_call"` and
`"Call another agent"`; the per-instance fields merely store the given
strings and never reach the exposed definition, which is identical across
instances. -/
theorem agent_tool_constant_exposure (n d : String) (ag : Agent)
    (n' d' : String) (ag' : Agent) :
    (AgentTool.new n d ag).tool_name = "agent_call" ∧
    (AgentTool.new n d ag).tool_description = "Call another agent" ∧
    (AgentTool.new n d ag).exposed_definition
      = ⟨"agent_call", "Call another agent",
         impl_tool_arg_struct [⟨"message", .stringTy, ""⟩]⟩ ∧
    (AgentTool.new n d ag).exposed_definition = (AgentTool.new n' d' ag').exposed_definition ∧
    (AgentTool.new n d ag).name = n ∧
    (AgentTool.new n d ag).description = d :=
  ⟨rfl, rfl, rfl, rfl, rfl, rfl⟩

/-- Evaluate `conversation_append_only` at a concrete conversation,
discharging the index-bound hypothesis of its preservation conjunct. -/
theorem conversation_append_only_witness :
    (Conversation.add_user_message [Msg.user "hi"] "x"
      = [Msg.user "hi"] ++ [Msg.user "x"]) ∧
    ((0 : Nat) < ([Msg.user "hi"] : Conversation).length ∧
      (([Msg.user "hi"] : Conversation) ++ [Msg.tool "1" "4"])[0]?
        = ([Msg.user "hi"] : Conversation)[0]?) ∧
    Conversation.clear [Msg.user "hi"] = ([] : Conversation) :=
  ⟨(conversation_append_only [Msg.user "hi"] "x" none [] "1" "4").1,
   ⟨by decide,
    (conversation_append_only [Msg.user "hi"] "x" none [] "1" "4").2.2.2.2.2.1
      (Msg.tool "1" "4") 0 (by decide)⟩,
   (conversation_append_only [Msg.user "hi"] "x" none [] "1" "4").2.2.2.2.2.2.2⟩
